import Mathlib

/-!
Shallow embedding of the single-flight streaming TTS pipeline of src/app.py.

The embedding covers the module-level TTS state (the single shared audio
queue and the one-permit semaphore), the helper create_wave_header_for_engine,
the background worker play_text_to_speech_task, the response generator
tts_audio_stream_generator, and the /tts route handler text_to_speech.

Modelling conventions:
- raw bytes are lists of natural numbers (each entry one byte value);
- the TTS engine is a record exposing get_stream_info, which in the source
  either returns a (format, channels, sample_rate) tuple or raises;
- queue items are Option (List Nat): some chunk is an audio chunk, none is
  the None sentinel the worker enqueues to end the session;
- the worker is modelled by the ordered trace of its observable effects
  (queue puts and the semaphore release in the finally block), as a total
  function: the except branch absorbs any engine failure, so no exception
  escapes the task;
- the one-permit semaphore is modelled as a boolean gate (held or free),
  and acquire with blocking set to False succeeds exactly when it is free.
-/

/-- Model of the RealtimeTTS engine object as the app uses it: the only
method the core pipeline calls is get_stream_info, which returns a
(format, channels, sample_rate) triple or raises an exception (error). -/
structure TtsEngine where
  stream_info : Except Unit (Nat × Nat × Nat)

/-- get_stream_info of the engine: returns the stream triple or raises. -/
def TtsEngine.get_stream_info (e : TtsEngine) : Except Unit (Nat × Nat × Nat) :=
  e.stream_info

/-- Little-endian encoding of a 16-bit field, as the wave module packs it. -/
def u16le (n : Nat) : List Nat :=
  [n % 256, n / 256 % 256]

/-- Little-endian encoding of a 32-bit field, as the wave module packs it. -/
def u32le (n : Nat) : List Nat :=
  [n % 256, n / 256 % 256, n / 65536 % 256, n / 16777216 % 256]

/-- Byte layout the Python wave module emits for a WAV file opened for
writing with the given channel count, sample width and frame rate, after
writeframes of the empty byte string and close: a 44-byte header whose
data-chunk length is zero. -/
def wave_header_bytes (nchannels sampwidth framerate : Nat) : List Nat :=
  [82, 73, 70, 70] ++ u32le 36 ++         -- RIFF, chunk size 36 + data length 0
  [87, 65, 86, 69] ++                      -- WAVE
  [102, 109, 116, 32] ++ u32le 16 ++       -- fmt , subchunk size 16
  u16le 1 ++                               -- audio format 1 (PCM)
  u16le nchannels ++
  u32le framerate ++
  u32le (nchannels * framerate * sampwidth) ++  -- byte rate
  u16le (nchannels * sampwidth) ++              -- block align
  u16le (sampwidth * 8) ++                      -- bits per sample
  [100, 97, 116, 97] ++ u32le 0                 -- data, data length 0

/-- create_wave_header_for_engine of src/app.py: returns empty bytes when the
engine is missing, unpacks only the third component of get_stream_info as the
sample rate, hard-codes num_channels = 1 and sample_width = 2, and returns
empty bytes when get_stream_info raises (the except branch logs and returns
the empty byte string). -/
def create_wave_header_for_engine (engine : Option TtsEngine) : List Nat :=
  match engine with
  | none => []
  | some e =>
    match e.get_stream_info with
    | Except.error _ => []
    | Except.ok info =>
      -- the source discards the first two tuple components:
      -- _, _, sample_rate = engine.get_stream_info()
      wave_header_bytes 1 2 info.2.2

/-- Outcome of the blocking stream.play call inside the worker: the engine
either completes normally or raises after having produced its chunks. -/
inductive PlayOutcome
  | completes
  | raises
deriving DecidableEq

/-- Behaviour of one engine run: the ordered chunks the engine hands to the
on_audio_chunk callback before the play call returns or raises, and how the
play call ends. -/
structure EngineBehavior where
  chunks : List (List Nat)
  outcome : PlayOutcome
deriving DecidableEq

/-- Observable effects of the worker thread, in program order. -/
inductive TaskEvent
  | putChunk (chunk : List Nat)
  | putNone
  | releaseSem
deriving DecidableEq

/-- Predicate picking out the semaphore release event. -/
def TaskEvent.isRelease : TaskEvent → Bool
  | TaskEvent.releaseSem => true
  | _ => false

/-- Predicate picking out the None sentinel put. -/
def TaskEvent.isPutNone : TaskEvent → Bool
  | TaskEvent.putNone => true
  | _ => false

/-- play_text_to_speech_task of src/app.py, as the trace of its queue puts
and semaphore release. When the stream object is missing the try body raises
ValueError before feeding, the except branch puts the None sentinel;
otherwise stream.play invokes on_audio_chunk once per chunk in production
order (each callback invocation is an audio_queue.put of that chunk), and
then either the try body (normal completion) or the except branch (engine
raised) puts the None sentinel. The finally block releases the semaphore in
every case. The function is total: the except branch swallows the failure,
so no exception propagates out of the task. -/
def play_text_to_speech_task (stream_ok : Bool) (beh : EngineBehavior) :
    List TaskEvent :=
  (if stream_ok then
    match beh.outcome with
    | PlayOutcome.completes =>
      -- try body: chunks via the callback, then audio_queue.put(None)
      beh.chunks.map TaskEvent.putChunk ++ [TaskEvent.putNone]
    | PlayOutcome.raises =>
      -- chunks via the callback, then the except branch does audio_queue.put(None)
      beh.chunks.map TaskEvent.putChunk ++ [TaskEvent.putNone]
  else
    -- ValueError raised before feed, except branch does audio_queue.put(None)
    [TaskEvent.putNone])
  ++ [TaskEvent.releaseSem]  -- finally: semaphore.release()

/-- Contents of the shared audio queue produced by a trace of task events,
in put order: putChunk contributes some chunk, putNone contributes the none
sentinel, the semaphore release touches no queue. -/
def queued_items (events : List TaskEvent) : List (Option (List Nat)) :=
  events.filterMap (fun e =>
    match e with
    | TaskEvent.putChunk c => some (some c)
    | TaskEvent.putNone => some none
    | TaskEvent.releaseSem => none)

/-- Module-level TTS gate state: the one-permit semaphore is either held by
a running synthesis task or free. -/
structure ServerState where
  gateHeld : Bool
deriving DecidableEq

/-- Effect of one task event on the gate: the release in the finally block
returns the single permit, any queue put leaves the gate alone. -/
def apply_task_event (st : ServerState) (e : TaskEvent) : ServerState :=
  match e with
  | TaskEvent.releaseSem => { gateHeld := false }
  | _ => st

/-- Gate state after the worker trace runs to completion. -/
def run_task_events (st : ServerState) (events : List TaskEvent) : ServerState :=
  events.foldl apply_task_event st

/-- Loop body of tts_audio_stream_generator: repeatedly get from the queue;
on the None sentinel break; on a chunk, if wave headers are enabled and the
header has not been sent, build the header from the current engine, yield it
when non-empty, and mark the header as sent unconditionally; then yield the
chunk. The queue contents are modelled as a list consumed left to right (an
exhausted list corresponds to blocking forever on get, producing nothing
more). The second component counts how many times the header build was
attempted, for stating the at-most-once property. -/
def tts_gen_loop (tts_engine : Option TtsEngine)
    (send_wave_headers header_sent : Bool) :
    List (Option (List Nat)) → List (List Nat) × Nat
  | [] => ([], 0)
  | none :: _ => ([], 0)
  | some chunk :: rest =>
    if send_wave_headers && !header_sent then
      let header := create_wave_header_for_engine tts_engine
      let tail := tts_gen_loop tts_engine send_wave_headers true rest
      ((if header.isEmpty then [] else [header]) ++ chunk :: tail.1, tail.2 + 1)
    else
      let tail := tts_gen_loop tts_engine send_wave_headers header_sent rest
      (chunk :: tail.1, tail.2)

/-- tts_audio_stream_generator of src/app.py: starts with send_wave_headers
true and header_sent false, then runs the queue-draining loop against the
current module-level engine. Returns the yielded byte chunks in order and
the number of header build attempts. -/
def tts_audio_stream_generator (tts_engine : Option TtsEngine)
    (queue_items : List (Option (List Nat))) : List (List Nat) × Nat :=
  tts_gen_loop tts_engine true false queue_items

/-- Error payloads the /tts handler can return via jsonify. -/
inductive TtsError
  | noTextProvided        -- No text provided for TTS.
  | serviceUnavailable    -- Text-to-Speech service unavailable.
  | serviceBusy           -- busy, try again shortly
deriving DecidableEq

/-- Response of the /tts handler: a JSON error with an HTTP status, or the
streaming audio/wav response whose generator reads the given queue. Queues
are identified by creation index; the module loads exactly one queue. -/
inductive TtsHttpResponse
  | jsonError (status : Nat) (err : TtsError)
  | streamingAudio (queueId : Nat)
deriving DecidableEq

/-- Observable outcome of one /tts request: the response, whether the
handler attempted to acquire the semaphore, which queue (if any) was passed
to a spawned worker thread and to the response generator, and the gate state
when the handler returns. -/
structure HandlerResult where
  response : TtsHttpResponse
  acquireAttempted : Bool
  workerQueue : Option Nat
  generatorQueue : Option Nat
  gateHeldAfter : Bool
deriving DecidableEq

/-- Identity of the single module-level Queue created once at import time
(tts_audio_queue = Queue()); the handler never creates another queue. -/
def tts_audio_queue_id : Nat := 0

/-- text_to_speech of src/app.py, the /tts route handler. Checks the text
query parameter first (empty or missing gives 400 before anything else),
then engine and stream availability (503 before touching the gate), then
attempts the non-blocking semaphore acquire: on success it spawns the worker
thread with the shared module-level queue and returns the streaming response
reading that same queue; on failure it returns 503 busy immediately, with no
worker spawned and no waiting. -/
def text_to_speech (text : String) (tts_engine : Option TtsEngine)
    (tts_stream_ok : Bool) (st : ServerState) : HandlerResult :=
  if text.isEmpty then
    { response := TtsHttpResponse.jsonError 400 TtsError.noTextProvided,
      acquireAttempted := false, workerQueue := none, generatorQueue := none,
      gateHeldAfter := st.gateHeld }
  else if tts_engine.isNone || !tts_stream_ok then
    { response := TtsHttpResponse.jsonError 503 TtsError.serviceUnavailable,
      acquireAttempted := false, workerQueue := none, generatorQueue := none,
      gateHeldAfter := st.gateHeld }
  else if st.gateHeld then
    -- acquire with blocking False failed: reject immediately, never enqueue
    { response := TtsHttpResponse.jsonError 503 TtsError.serviceBusy,
      acquireAttempted := true, workerQueue := none, generatorQueue := none,
      gateHeldAfter := true }
  else
    -- acquire succeeded: spawn the worker on the shared queue and stream
    { response := TtsHttpResponse.streamingAudio tts_audio_queue_id,
      acquireAttempted := true, workerQueue := some tts_audio_queue_id,
      generatorQueue := some tts_audio_queue_id,
      gateHeldAfter := true }


/-! Helper lemmas about the generator, the queue contents and the gate. -/

/-- Once the header is marked as sent, the generator loop yields exactly the
remaining chunks up to the sentinel and attempts no further header build. -/
theorem gen_loop_after_header (e : Option TtsEngine) (chunks : List (List Nat)) :
    tts_gen_loop e true true (chunks.map Option.some ++ [none]) = (chunks, 0) := by
  induction chunks with
  | nil => rfl
  | cons c cs ih => simp [tts_gen_loop, ih]

/-- Closed form of the generator on a well-formed session queue (the chunks
in order followed by the None sentinel): the yields are a header segment,
present exactly when there is at least one chunk and the built header is
non-empty, followed by the chunks in order; the header build is attempted
once when there is at least one chunk and never otherwise. -/
theorem gen_session_eq (e : Option TtsEngine) (chunks : List (List Nat)) :
    tts_audio_stream_generator e (chunks.map Option.some ++ [none]) =
      ((if chunks.isEmpty then []
        else if (create_wave_header_for_engine e).isEmpty then []
        else [create_wave_header_for_engine e]) ++ chunks,
       if chunks.isEmpty then 0 else 1) := by
  cases chunks with
  | nil => rfl
  | cons c cs =>
    simp [tts_audio_stream_generator, tts_gen_loop, gen_loop_after_header]

/-- Queue contents of a trace that starts with chunk puts: the chunks appear
first, in order, followed by the contents of the rest of the trace. -/
theorem queued_items_putChunks (chunks : List (List Nat)) (rest : List TaskEvent) :
    queued_items (chunks.map TaskEvent.putChunk ++ rest) =
      chunks.map Option.some ++ queued_items rest := by
  induction chunks with
  | nil => rfl
  | cons c cs ih => simp [queued_items, List.filterMap_cons] at ih ⊢; exact ih

/-- Queue contents produced by one run of the worker: all chunks the engine
produced (none when the stream object was missing), in order, followed by
exactly one None sentinel. -/
theorem queued_items_task (stream_ok : Bool) (beh : EngineBehavior) :
    queued_items (play_text_to_speech_task stream_ok beh) =
      (if stream_ok then beh.chunks else []).map Option.some ++ [none] := by
  cases stream_ok with
  | false => rfl
  | true =>
    obtain ⟨chunks, outcome⟩ := beh
    have key : queued_items ((chunks.map TaskEvent.putChunk ++ [TaskEvent.putNone])
          ++ [TaskEvent.releaseSem]) = chunks.map Option.some ++ [none] := by
      rw [List.append_assoc, queued_items_putChunks]; rfl
    cases outcome <;> exact key

/-- Chunk puts are not semaphore releases. -/
theorem countP_isRelease_putChunks (chunks : List (List Nat)) :
    (chunks.map TaskEvent.putChunk).countP TaskEvent.isRelease = 0 := by
  induction chunks with
  | nil => rfl
  | cons c cs ih => simp [List.countP_cons, TaskEvent.isRelease, ih]

/-- Running any trace that ends in the semaphore release leaves the gate
free, whatever the starting state and the earlier events. -/
theorem run_task_events_release (st : ServerState) (events : List TaskEvent) :
    run_task_events st (events ++ [TaskEvent.releaseSem]) = { gateHeld := false } := by
  simp [run_task_events, List.foldl_append, apply_task_event]

/-! Claim theorems. -/

/-- C1: for every accepted /tts request, the worker trace contains exactly
one semaphore release, the gate held at spawn time is free again once the
trace has run, whatever the engine outcome and whether the stream object was
available, and a subsequent /tts request with non-empty text and a working
engine is then accepted (its worker is spawned on the shared queue). -/
theorem semaphore_released_exactly_once (stream_ok : Bool) (beh : EngineBehavior) :
    (play_text_to_speech_task stream_ok beh).countP TaskEvent.isRelease = 1
    ∧ run_task_events { gateHeld := true } (play_text_to_speech_task stream_ok beh) =
        { gateHeld := false }
    ∧ (∀ (text : String) (e : TtsEngine), text.isEmpty = false →
        (text_to_speech text (some e) true
          (run_task_events { gateHeld := true }
            (play_text_to_speech_task stream_ok beh))).workerQueue =
          some tts_audio_queue_id) := by
  have hrun : run_task_events { gateHeld := true } (play_text_to_speech_task stream_ok beh) =
      { gateHeld := false } := by
    unfold play_text_to_speech_task
    exact run_task_events_release _ _
  refine ⟨?_, hrun, ?_⟩
  · cases stream_ok with
    | false => rfl
    | true =>
      obtain ⟨chunks, outcome⟩ := beh
      have key : ((chunks.map TaskEvent.putChunk ++ [TaskEvent.putNone])
            ++ [TaskEvent.releaseSem]).countP TaskEvent.isRelease = 1 := by
        simp [List.countP_append, countP_isRelease_putChunks, List.countP_cons,
          TaskEvent.isRelease]
      cases outcome <;> exact key
  · intro text e htext
    rw [hrun]
    simp [text_to_speech, htext]

/-- Witness for C1 at a concrete failing run and a concrete follow-up
request. -/
theorem semaphore_released_exactly_once_witness :
    (play_text_to_speech_task true
        { chunks := [[1], [2]], outcome := PlayOutcome.raises }).countP TaskEvent.isRelease = 1
    ∧ (Nat.repr 5).isEmpty = false
    ∧ (text_to_speech (Nat.repr 5) (some { stream_info := Except.ok (1, 1, 24000) }) true
        (run_task_events { gateHeld := true }
          (play_text_to_speech_task true
            { chunks := [[1], [2]], outcome := PlayOutcome.raises }))).workerQueue =
        some tts_audio_queue_id :=
  ⟨(semaphore_released_exactly_once true
      { chunks := [[1], [2]], outcome := PlayOutcome.raises }).1,
   by decide,
   (semaphore_released_exactly_once true
      { chunks := [[1], [2]], outcome := PlayOutcome.raises }).2.2
     (Nat.repr 5) { stream_info := Except.ok (1, 1, 24000) } (by decide)⟩

/-- C2: the worker enqueues the chunks the engine produced, in order, then
exactly one None sentinel, last, on normal completion, on engine failure and
on a missing stream object alike; the trace function is total, so no
exception leaves the task. -/
theorem end_marker_enqueued_exactly_once_last (stream_ok : Bool) (beh : EngineBehavior) :
    queued_items (play_text_to_speech_task stream_ok beh) =
      (if stream_ok then beh.chunks else []).map Option.some ++ [none]
    ∧ (queued_items (play_text_to_speech_task stream_ok beh)).count
        (none : Option (List Nat)) = 1 := by
  refine ⟨queued_items_task stream_ok beh, ?_⟩
  rw [queued_items_task]
  simp [List.count_append, List.count_eq_zero, List.mem_map]

/-- C3: a request with non-empty text and a working engine arriving while
the gate is held gets the 503 busy JSON error, spawns no worker, hands no
queue to any generator, and leaves the gate exactly as it was (held). -/
theorem busy_gate_rejects_with_503 (text : String) (e : TtsEngine)
    (st : ServerState) (htext : text.isEmpty = false) (hheld : st.gateHeld = true) :
    text_to_speech text (some e) true st =
      { response := TtsHttpResponse.jsonError 503 TtsError.serviceBusy,
        acquireAttempted := true, workerQueue := none, generatorQueue := none,
        gateHeldAfter := st.gateHeld } := by
  simp [text_to_speech, htext, hheld]

/-- Witness for C3 at a concrete busy state. -/
theorem busy_gate_rejects_with_503_witness :
    (Nat.repr 7).isEmpty = false
    ∧ text_to_speech (Nat.repr 7) (some { stream_info := Except.ok (1, 1, 24000) }) true
        { gateHeld := true } =
      { response := TtsHttpResponse.jsonError 503 TtsError.serviceBusy,
        acquireAttempted := true, workerQueue := none, generatorQueue := none,
        gateHeldAfter := true } :=
  ⟨by decide,
   busy_gate_rejects_with_503 (Nat.repr 7) { stream_info := Except.ok (1, 1, 24000) }
     { gateHeld := true } (by decide) rfl⟩

/-- C4: end to end, for any number of chunks the engine produces (zero, one
or many), the body the generator yields is a header segment followed by the
chunks of the session, verbatim and in production order: nothing is dropped,
reordered or duplicated. -/
theorem stream_chunks_match_engine_order (e : Option TtsEngine) (beh : EngineBehavior) :
    (tts_audio_stream_generator e
        (queued_items (play_text_to_speech_task true beh))).1 =
      (if beh.chunks.isEmpty then []
       else if (create_wave_header_for_engine e).isEmpty then []
       else [create_wave_header_for_engine e]) ++ beh.chunks := by
  rw [queued_items_task]
  simp [gen_session_eq]

/-- C5: when the built header is non-empty and at least one chunk arrives,
the header is yielded exactly once, as the first yield, before the first
chunk; when the first item dequeued is the None sentinel the generator
stops at once, yielding nothing and never building a header. -/
theorem wave_header_once_before_first_chunk (e : Option TtsEngine)
    (chunks : List (List Nat)) :
    ((create_wave_header_for_engine e).isEmpty = false → chunks.isEmpty = false →
      (tts_audio_stream_generator e (chunks.map Option.some ++ [none])).1 =
        create_wave_header_for_engine e :: chunks)
    ∧ tts_audio_stream_generator e [none] = ([], 0) := by
  constructor
  · intro hh hc
    rw [gen_session_eq]
    simp [hh, hc]
  · rfl

/-- Witness for C5 at a concrete engine and a two-chunk session. -/
theorem wave_header_once_before_first_chunk_witness :
    (create_wave_header_for_engine (some { stream_info := Except.ok (1, 1, 24000) })).isEmpty
        = false
    ∧ (tts_audio_stream_generator (some { stream_info := Except.ok (1, 1, 24000) })
        ([[1, 2], [3]].map Option.some ++ [none])).1 =
      create_wave_header_for_engine (some { stream_info := Except.ok (1, 1, 24000) })
        :: [[1, 2], [3]] :=
  ⟨by decide,
   (wave_header_once_before_first_chunk
      (some { stream_info := Except.ok (1, 1, 24000) }) [[1, 2], [3]]).1
     (by decide) (by decide)⟩

/-- C6 counterexample: two sequential accepted sessions (the second accepted
after the first worker released the gate) are both handed the same
module-level queue, so the relay instance is reused across sessions rather
than created fresh per session. -/
theorem relay_reuse_counterexample :
    (text_to_speech (Nat.repr 1) (some { stream_info := Except.ok (1, 1, 24000) }) true
        { gateHeld := false }).workerQueue = some tts_audio_queue_id
    ∧ (text_to_speech (Nat.repr 2) (some { stream_info := Except.ok (1, 1, 24000) }) true
        (run_task_events { gateHeld := true }
          (play_text_to_speech_task true
            { chunks := [[1]], outcome := PlayOutcome.completes }))).workerQueue =
        some tts_audio_queue_id := by
  decide

/-- C6 amended: every /tts request either spawns no worker or hands the one
module-level queue, created once at import time, to both the worker and the
response generator; no request ever creates a fresh relay, and worker and
responder of a session always share that single queue. -/
theorem single_shared_relay_across_sessions (text : String)
    (tts_engine : Option TtsEngine) (tts_stream_ok : Bool) (st : ServerState) :
    ((text_to_speech text tts_engine tts_stream_ok st).workerQueue = none
      ∨ (text_to_speech text tts_engine tts_stream_ok st).workerQueue =
          some tts_audio_queue_id)
    ∧ (text_to_speech text tts_engine tts_stream_ok st).workerQueue =
        (text_to_speech text tts_engine tts_stream_ok st).generatorQueue := by
  unfold text_to_speech
  split
  · simp
  · split
    · simp
    · split <;> simp

/-- C7 counterexample: an engine whose get_stream_info reports 2 channels is
given exactly the header built for 1 channel, although the wave encoding
does distinguish channel counts; the reported channel count (and everything
but the sample rate) is ignored by create_wave_header_for_engine. -/
theorem header_params_counterexample :
    create_wave_header_for_engine (some { stream_info := Except.ok (8, 2, 24000) }) =
      create_wave_header_for_engine (some { stream_info := Except.ok (8, 1, 24000) })
    ∧ wave_header_bytes 2 2 24000 ≠ wave_header_bytes 1 2 24000
    ∧ create_wave_header_for_engine (some { stream_info := Except.ok (8, 2, 24000) }) =
        wave_header_bytes 1 2 24000 := by
  decide

/-- C7 amended: at header-build time only the sample rate is taken from the
current engine stream info; the channel count and the sample width of the
header are the fixed constants 1 and 2, and the other reported stream-info
components do not influence the header. Different sample rates do yield
different headers, so the rate genuinely flows from the engine. -/
theorem header_rate_from_engine_rest_constant (fmt ch rate fmt2 ch2 : Nat) :
    create_wave_header_for_engine (some { stream_info := Except.ok (fmt, ch, rate) }) =
      wave_header_bytes 1 2 rate
    ∧ create_wave_header_for_engine (some { stream_info := Except.ok (fmt, ch, rate) }) =
        create_wave_header_for_engine (some { stream_info := Except.ok (fmt2, ch2, rate) })
    ∧ wave_header_bytes 1 2 24000 ≠ wave_header_bytes 1 2 22050 :=
  ⟨rfl, rfl, by decide⟩

/-- C8: create_wave_header_for_engine returns the empty byte sequence when
the engine is missing and when get_stream_info raises, and whenever the
built header is empty the generator silently skips header emission while
still yielding every chunk of the session. -/
theorem empty_header_skips_emission (e : Option TtsEngine) (chunks : List (List Nat)) :
    create_wave_header_for_engine none = []
    ∧ create_wave_header_for_engine (some { stream_info := Except.error () }) = []
    ∧ ((create_wave_header_for_engine e).isEmpty = true →
        (tts_audio_stream_generator e (chunks.map Option.some ++ [none])).1 = chunks) := by
  refine ⟨rfl, rfl, fun hh => ?_⟩
  rw [gen_session_eq]
  cases hc : chunks.isEmpty <;> simp [hh, hc]

/-- Witness for C8 with a missing engine and two chunks. -/
theorem empty_header_skips_emission_witness :
    (create_wave_header_for_engine (none : Option TtsEngine)).isEmpty = true
    ∧ (tts_audio_stream_generator none ([[5], [6]].map Option.some ++ [none])).1 =
        [[5], [6]] :=
  ⟨by decide, (empty_header_skips_emission none [[5], [6]]).2.2 (by decide)⟩

/-- C10: in one session the header build is attempted at most once (exactly
once as soon as a first chunk arrives), and when that single attempt returns
empty bytes the yields are exactly the chunks: header_sent is still set, so
no header bytes can appear after the first chunk has been yielded. -/
theorem header_build_attempted_at_most_once (e : Option TtsEngine)
    (chunks : List (List Nat)) :
    (tts_audio_stream_generator e (chunks.map Option.some ++ [none])).2 ≤ 1
    ∧ (chunks.isEmpty = false →
        (tts_audio_stream_generator e (chunks.map Option.some ++ [none])).2 = 1)
    ∧ ((create_wave_header_for_engine e).isEmpty = true →
        (tts_audio_stream_generator e (chunks.map Option.some ++ [none])).1 = chunks) := by
  refine ⟨?_, ?_, ?_⟩
  · rw [gen_session_eq]
    cases hc : chunks.isEmpty <;> simp [hc]
  · intro hc
    rw [gen_session_eq]
    simp [hc]
  · intro hh
    rw [gen_session_eq]
    cases hc : chunks.isEmpty <;> simp [hh, hc]

/-- Witness for C10 with a failing engine and one chunk. -/
theorem header_build_attempted_at_most_once_witness :
    (tts_audio_stream_generator (some { stream_info := Except.error () })
        ([[9]].map Option.some ++ [none])).2 = 1
    ∧ (tts_audio_stream_generator (some { stream_info := Except.error () })
        ([[9]].map Option.some ++ [none])).1 = [[9]] :=
  ⟨(header_build_attempted_at_most_once (some { stream_info := Except.error () })
      [[9]]).2.1 (by decide),
   (header_build_attempted_at_most_once (some { stream_info := Except.error () })
      [[9]]).2.2 (by decide)⟩

/-- C9: a request whose text query parameter is missing or empty is rejected
with the 400 JSON error before the gate is touched: no acquire attempt, no
worker, no generator queue, and the gate state is returned unchanged. -/
theorem empty_text_rejected_without_gate (tts_engine : Option TtsEngine)
    (tts_stream_ok : Bool) (st : ServerState) :
    text_to_speech (String.mk []) tts_engine tts_stream_ok st =
      { response := TtsHttpResponse.jsonError 400 TtsError.noTextProvided,
        acquireAttempted := false, workerQueue := none, generatorQueue := none,
        gateHeldAfter := st.gateHeld } := by
  rfl
